import Mathlib

/-!
Shallow embedding of `src/humanizador_avanzado_con_ai_detector_react.jsx`
(single React component `HumanizerWithDetector`).

JavaScript values produced by `JSON.parse` are modelled by `JVal`;
the JS distinction between `null` (a value) and `undefined` (absent
property) is modelled by `Option JVal`, with `none` standing for
`undefined`.  `JSON.parse` itself is a browser built-in, so it enters the
embedding as a parameter `parseJson : String → Option JVal` (`none`
models a parse that throws); facts known of real JSON parsing, such as
"an object literal needs a left brace", appear as hypotheses.
-/

namespace Humanizador

/-- Values a JSON parse can yield (JS objects, arrays, primitives). -/
inductive JVal where
  | null
  | bool (b : Bool)
  | num (q : ℚ)
  | str (s : String)
  | arr (xs : List JVal)
  | obj (fields : List (String × JVal))
deriving Repr

/-- Left brace character, written by code to avoid literal braces in strings. -/
def lbrace : Char := Char.ofNat 123

/-- Right brace character. -/
def rbrace : Char := Char.ofNat 125

/-- JS truthiness of a `JVal` (`NaN` aside, which JSON cannot produce). -/
def jsTruthyV : JVal → Bool
  | .null => false
  | .bool b => b
  | .num q => q ≠ 0
  | .str s => s ≠ ""
  | .arr _ => true
  | .obj _ => true

/-- JS property access `v[k]` for a string key: defined only on objects
(primitives and arrays have no such own property); `none` is `undefined`. -/
def jsProp : JVal → String → Option JVal
  | .obj fields, k => (fields.find? (fun p => p.1 = k)).map Prod.snd
  | _, _ => none

/-- JS element access `v[0]`: array head, object property named 0,
first character of a string; `undefined` otherwise. -/
def jsIndex0 : JVal → Option JVal
  | .arr xs => xs.head?
  | .obj fields => (fields.find? (fun p => p.1 = "0")).map Prod.snd
  | .str s =>
      match s.data with
      | [] => none
      | c :: _ => some (.str (String.mk [c]))
  | _ => none

/-- JS nullish test on a possibly-undefined value. -/
def nullishO : Option JVal → Bool
  | none => true
  | some .null => true
  | some _ => false

/-- JS `String.prototype.trim`: strip leading and trailing whitespace
(modelled over the character list so the kernel can evaluate it). -/
def jsTrim (s : String) : String :=
  String.mk
    (((s.data.dropWhile Char.isWhitespace).reverse.dropWhile Char.isWhitespace).reverse)

/-- The value of the optional chain `data.choices?.[0]?.message?.content`
(line 107 / line 119 of the source), `none` when the chain short-circuits
to `undefined` or some step is missing. -/
def contentPath (data : JVal) : Option JVal :=
  let c := jsProp data "choices"
  if nullishO c then none else
  let c0 := jsIndex0 (c.getD .null)
  if nullishO c0 then none else
  let m := jsProp (c0.getD .null) "message"
  if nullishO m then none else
  let ct := jsProp (m.getD .null) "content"
  if nullishO ct then none else ct

/-- The source's `data.choices?.[0]?.message?.content?.trim() || ""`.
`data.choices` is not guarded by optional chaining, so a `null` body
throws; `content?.trim()` throws when `content` is a defined non-string
(functions are not JSON values, so only strings have `trim`).
`Except.error` models the thrown `TypeError`. -/
def extractContent (data : JVal) : Except String String :=
  match data with
  | .null => .error "TypeError: cannot read properties of null"
  | _ =>
    match contentPath data with
    | none => .ok ""
    | some (.str s) => .ok (jsTrim s)
    | some _ => .error "TypeError: trim is not a function"

/-- Index of the first occurrence of `c` (JS `String.prototype.indexOf`,
with `none` for the JS result -1). -/
def firstIdxAux (c : Char) : List Char → Option Nat
  | [] => none
  | x :: xs => if x = c then some 0 else (firstIdxAux c xs).map (· + 1)

/-- `detectText.indexOf(c)` on the character list of the string. -/
def firstIdx (c : Char) (s : String) : Option Nat := firstIdxAux c s.data

/-- `detectText.lastIndexOf(c)`: first occurrence in the reversed list,
mapped back to an index from the front. -/
def lastIdx (c : Char) (s : String) : Option Nat :=
  (firstIdxAux c s.data.reverse).map (fun i => s.data.length - 1 - i)

/-- JS `String.prototype.substring(a, b)`: both arguments are clamped to
the string length and swapped when out of order. -/
def jsSubstring (s : String) (a b : Nat) : String :=
  let l := s.data
  let a' := min a l.length
  let b' := min b l.length
  let lo := min a' b'
  let hi := max a' b'
  String.mk ((l.drop lo).take (hi - lo))

/-- What `setScore` / `setReason` receive after the detection step
(lines 135-142): `score` is `JVal.null` for the unscored fallback. -/
structure DetectionOutcome where
  score : JVal
  reason : JVal
deriving Repr

/-- Lines 122-133 of the source: find the first left brace and the last
right brace; when both exist, slice between them (inclusive) and
`JSON.parse` the slice, a parse error being swallowed into `none`. -/
def parsedOf (parseJson : String → Option JVal) (detectText : String) : Option JVal :=
  match firstIdx lbrace detectText, lastIdx rbrace detectText with
  | some a, some b => parseJson (jsSubstring detectText a (b + 1))
  | _, _ => none

/-- Lines 135-142: score from a truthy parse whose `probability` property
is defined, else the unscored fallback carrying the raw text. -/
def extractDetection (parseJson : String → Option JVal) (detectText : String) :
    DetectionOutcome :=
  match parsedOf parseJson detectText with
  | some p =>
    if jsTruthyV p then
      match jsProp p "probability" with
      | some prob =>
        { score := prob,
          reason :=
            match jsProp p "explanation" with
            | some e => if jsTruthyV e then e else JVal.str ""
            | none => JVal.str "" }
      | none => { score := JVal.null, reason := JVal.str detectText }
    else { score := JVal.null, reason := JVal.str detectText }
  | none => { score := JVal.null, reason := JVal.str detectText }

/-- Result of a `fetch` to the completions endpoint: either the promise
rejects (network failure) with a message, or an HTTP response arrives with
a status, a body text (`res.text()`) and the body parsed as JSON
(`res.json()`, `none` when the body is not valid JSON). -/
inductive FetchOutcome where
  | netFail (msg : String)
  | http (status : Nat) (bodyText : String) (bodyJson : Option JVal)
deriving Repr

/-- `res.ok`: status in the range 200-299. -/
def statusOk (status : Nat) : Bool := 200 ≤ status ∧ status < 300

/-- `callOpenAI` (lines 62-79): on a non-ok status throw an `Error` whose
message is "OpenAI error: " followed by the status and the body text; a
rejected fetch propagates its own message; on success return the parsed
body (a body that is not JSON makes `res.json()` reject). -/
def callOpenAI : FetchOutcome → Except String JVal
  | .netFail msg => .error msg
  | .http status bodyText bodyJson =>
      if statusOk status then
        match bodyJson with
        | some j => .ok j
        | none => .error "SyntaxError: unexpected token"
      else .error ("OpenAI error: " ++ toString status ++ " " ++ bodyText)

/-- Request body for a completions call: `model`, the single user
message's `content`, `temperature`, `max_tokens`. -/
structure Payload where
  model : String
  content : String
  temperature : ℚ
  max_tokens : Nat
deriving Repr, DecidableEq

/-- `buildHumanizePrompt` (lines 54-56), parameterised by the component's
`tone` state which the template interpolates. -/
def buildHumanizePrompt (tone : String) (text : String) : String :=
  "Eres un experto en edición de textos. Reescribe el siguiente texto para que suene completamente humano, natural, fluido y con variedad léxica. Corrige errores gramaticales y de estilo, mejora la coherencia, pero mantén el significado, los hechos y la intención. Usa un tono: " ++ tone ++ ". Evita frases que suenen mecanizadas, evita repeticiones y muéstralo en formato final listo para publicar.\n\nTexto original:\n\"\"\"\n" ++ text ++ "\n\"\"\""

/-- `buildDetectPrompt` (lines 58-60). -/
def buildDetectPrompt (text : String) : String :=
  "Eres un detector experto de texto generado por IA. Lee el texto y evalúa la probabilidad (0-100) de que haya sido generado por una IA. Da un número entero de 0 a 100 y una explicación breve (1-2 frases) con las señales usadas para decidir. Devuélvelo en formato JSON EXACTO: \x7b\"probability\": 0-100, \"explanation\": \"...\"\x7d\n\nTexto:\n\"\"\"\n" ++ text ++ "\n\"\"\""

/-- The rewrite request payload (lines 99-104); `Number(temperature)` is
the identity on the numeric model of the slider state. -/
def mkRewritePayload (tone : String) (temperature : ℚ) (input : String) : Payload :=
  { model := "gpt-4o-mini", content := buildHumanizePrompt tone input,
    temperature := temperature, max_tokens := 1200 }

/-- The detection request payload (lines 111-116): fixed temperature 0 and
`max_tokens` 200, prompt built from the original input only. -/
def mkDetectPayload (input : String) : Payload :=
  { model := "gpt-4o-mini", content := buildDetectPrompt input,
    temperature := 0, max_tokens := 200 }

/-- The component's `useState` cells that `handleHumanize` touches, plus
the selector states it reads. `score` holds whatever JS value `setScore`
received (`JVal.null` for JS `null`); `reason` likewise. -/
structure CompState where
  input : String
  output : String
  score : JVal
  reason : JVal
  loading : Bool
  mode : String
  tone : String
  temperature : ℚ
  apiKeyPrompted : Bool
deriving Repr

/-- The initial state of the component (lines 9-17). -/
def initState : CompState :=
  { input := "", output := "", score := JVal.null, reason := JVal.str "",
    loading := false, mode := "humanize", tone := "natural",
    temperature := 7/10, apiKeyPrompted := false }

/-- Browser storage visible to the component: `localStorage` and
`sessionStorage`, each possibly holding the string under key
"openai_key". -/
structure Storage where
  localKey : Option String
  sessionKey : Option String
deriving Repr, DecidableEq

/-- The external world of one run: the injected global
`window.__OPENAI_API_KEY__` (`none` is `undefined`), the user's reply to
`prompt` (`none` is cancel), the two fetch outcomes in order, and the
`JSON.parse` built-in. -/
structure Env where
  windowKey : Option String
  promptReply : Option String
  rewriteFetch : FetchOutcome
  detectFetch : FetchOutcome
  parseJson : String → Option JVal

/-- JS `a || b` on possibly-absent strings: `a` when truthy, else `b`. -/
def jsOr (a b : Option String) : Option String :=
  match a with
  | some s => if s = "" then b else some s
  | none => b

/-- Outcome of the credential lookup of lines 83-89. -/
structure KeyRes where
  key : Option String
  storage : Storage
  prompted : Bool
  promptedOk : Bool
deriving Repr, DecidableEq

/-- The prompt branch (lines 85-88): cancel or an empty reply abort; a
non-empty reply is written to `sessionStorage` and flags
`setApiKeyPrompted(true)`. -/
def promptKey (env : Env) (storage : Storage) : KeyRes :=
  match env.promptReply with
  | none => ⟨none, storage, true, false⟩
  | some r =>
      if r = "" then ⟨none, storage, true, false⟩
      else ⟨some r, { storage with sessionKey := some r }, true, true⟩

/-- Lines 83-89: `window.__OPENAI_API_KEY__ || localStorage.getItem`,
falling back to the interactive prompt when falsy.  Note the lookup never
reads `sessionStorage`. -/
def resolveKey (env : Env) (storage : Storage) : KeyRes :=
  match jsOr env.windowKey storage.localKey with
  | some s => if s = "" then promptKey env storage else ⟨some s, storage, false, false⟩
  | none => promptKey env storage

/-- Everything observable about one invocation of `handleHumanize`: the
final component state, the storage after the run, the alerts raised in
order, whether `prompt` was shown, the payloads of the issued requests
(`none` when a call was never made), and the component state current when
the first request went out. -/
structure RunLog where
  final : CompState
  storage : Storage
  alerts : List String
  prompted : Bool
  rewriteCall : Option Payload
  detectCall : Option Payload
  stateAtFirstCall : Option CompState
deriving Repr

/-- Lines 135-142 applied to the state: store the detection outcome. -/
def applyDetection (st : CompState) (d : DetectionOutcome) : CompState :=
  { st with score := d.score, reason := d.reason }

/-- The component state as of lines 91-94: `setApiKeyPrompted(true)` when
the key was just prompted (line 88), then `setLoading(true)` and the
clearing of `output`, `score` and `reason`. -/
def startedState (st : CompState) (promptedOk : Bool) : CompState :=
  let st0 := if promptedOk then { st with apiKeyPrompted := true } else st
  { st0 with loading := true, output := "", score := JVal.null, reason := JVal.str "" }

/-- `handleHumanize` (lines 81-149) as a state transformer.  The guard of
line 82 alerts and returns on blank input; lines 83-89 resolve the
credential (aborting silently if the user declines); lines 91-94 set
`loading` and clear `output`, `score`, `reason`; the rewrite call is
issued and its content extracted (a thrown `TypeError` from the unguarded
access lands in the catch, as does a thrown gateway error); on success
`output` receives the humanized text, then the detection call is issued
and the tolerant extractor fills `score` and `reason`; the catch alerts
"Error: " plus the thrown message and the finally clears `loading`. -/
def handleHumanize (env : Env) (storage : Storage) (st : CompState) : RunLog :=
  if jsTrim st.input = "" then
    ⟨st, storage, ["Pega o escribe un texto primero."], false, none, none, none⟩
  else
    let kr := resolveKey env storage
    match kr.key with
    | none => ⟨st, kr.storage, [], kr.prompted, none, none, none⟩
    | some _ =>
      let st1 := startedState st kr.promptedOk
      let rp := mkRewritePayload st.tone st.temperature st.input
      match callOpenAI env.rewriteFetch with
      | .error msg =>
          ⟨{ st1 with loading := false }, kr.storage, ["Error: " ++ msg],
           kr.prompted, some rp, none, some st1⟩
      | .ok data =>
        match extractContent data with
        | .error msg =>
            ⟨{ st1 with loading := false }, kr.storage, ["Error: " ++ msg],
             kr.prompted, some rp, none, some st1⟩
        | .ok humanized =>
          let st2 := { st1 with output := humanized }
          let dp := mkDetectPayload st.input
          match callOpenAI env.detectFetch with
          | .error msg =>
              ⟨{ st2 with loading := false }, kr.storage, ["Error: " ++ msg],
               kr.prompted, some rp, some dp, some st1⟩
          | .ok dresp =>
            match extractContent dresp with
            | .error msg =>
                ⟨{ st2 with loading := false }, kr.storage, ["Error: " ++ msg],
                 kr.prompted, some rp, some dp, some st1⟩
            | .ok detectText =>
                let d := extractDetection env.parseJson detectText
                ⟨{ applyDetection st2 d with loading := false }, kr.storage, [],
                 kr.prompted, some rp, some dp, some st1⟩

/-- The start button's `disabled` attribute (line 210): `loading`. -/
def startDisabled (st : CompState) : Bool := st.loading

/-- The copy button (lines 215-220) carries no `disabled` attribute. -/
def copyDisabled (_ : CompState) : Bool := false

/-- The clear button (lines 222-227) carries no `disabled` attribute. -/
def clearDisabled (_ : CompState) : Bool := false

/-- The download button (lines 229-234) carries no `disabled` attribute. -/
def saveDisabled (_ : CompState) : Bool := false

/-- A well-shaped completion body whose first choice's content is a fixed
humanized text. -/
def okBody : JVal :=
  .obj [("choices", .arr [.obj [("message", .obj [("content", .str "Texto humanizado.")])]])]

/-- A completion body whose `content` is a number: the path exists but
holds no string. -/
def badBody : JVal :=
  .obj [("choices", .arr [.obj [("message", .obj [("content", .num 5)])]])]

/-- Empty browser storage. -/
def stor0 : Storage := ⟨none, none⟩

/-- Component state with the input "hola" typed in. -/
def stHola : CompState := { initState with input := "hola" }

/-- Component state with whitespace-only input. -/
def stBlank : CompState := { initState with input := "   " }

/-- Component state in the middle of a run (`loading` true). -/
def stProcessing : CompState := { initState with loading := true }

/-- World where the injected global key exists, the rewrite call succeeds
with `okBody` and the detection call answers HTTP 500. -/
def env1 : Env :=
  { windowKey := some "sk-w", promptReply := none,
    rewriteFetch := .http 200 "" (some okBody),
    detectFetch := .http 500 "boom" none,
    parseJson := fun _ => none }

/-- World with no stored key anywhere where the user answers the prompt
with "sk-test"; both fetches fail at the network layer. -/
def env3 : Env :=
  { windowKey := none, promptReply := some "sk-test",
    rewriteFetch := .netFail "failed to fetch",
    detectFetch := .netFail "failed to fetch",
    parseJson := fun _ => none }

/-- World where the rewrite fetch itself rejects at the network layer. -/
def env7 : Env :=
  { windowKey := some "sk-w", promptReply := none,
    rewriteFetch := .netFail "Failed to fetch",
    detectFetch := .netFail "Failed to fetch",
    parseJson := fun _ => none }

/-- Inert world used where no call should ever be reached. -/
def envIdle : Env :=
  { windowKey := none, promptReply := none,
    rewriteFetch := .netFail "unreached", detectFetch := .netFail "unreached",
    parseJson := fun _ => none }

/-- The detection answer of the spec's wrong-type extractor test. -/
def ctext : String := "\x7b\"probability\": \"seventy\", \"explanation\": \"x\"\x7d"

/-- A `JSON.parse` model that parses exactly `ctext` to the object with a
string-valued `probability` and `explanation` "x". -/
def pjSeventy : String → Option JVal := fun s =>
  if s = ctext then
    some (.obj [("probability", .str "seventy"), ("explanation", .str "x")])
  else none

/-- A `JSON.parse` model that parses exactly the two-character object
literal to the empty object. -/
def pjEmptyObj : String → Option JVal := fun s =>
  if s = "\x7b\x7d" then some (.obj []) else none

theorem firstIdxAux_eq_none_iff (c : Char) (l : List Char) :
    firstIdxAux c l = none ↔ c ∉ l := by
  induction l with
  | nil => simp [firstIdxAux]
  | cons x xs ih =>
    by_cases hx : x = c
    · subst hx; simp [firstIdxAux]
    · have hx' : ¬ c = x := fun h => hx h.symm
      simp [firstIdxAux, hx, Option.map_eq_none', ih, List.mem_cons, hx']

theorem firstIdxAux_spec (c : Char) :
    ∀ (l : List Char) (a : Nat), firstIdxAux c l = some a →
      a < l.length ∧ c ∉ l.take a := by
  intro l
  induction l with
  | nil => intro a h; simp [firstIdxAux] at h
  | cons x xs ih =>
    intro a h
    by_cases hx : x = c
    · subst hx
      simp [firstIdxAux] at h
      subst h
      exact ⟨Nat.succ_pos _, by simp⟩
    · simp [firstIdxAux, hx, Option.map_eq_some'] at h
      obtain ⟨i, hi, rfl⟩ := h
      obtain ⟨h1, h2⟩ := ih i hi
      refine ⟨Nat.succ_lt_succ h1, ?_⟩
      rw [List.take_succ_cons]
      intro hmem
      rcases List.mem_cons.mp hmem with h | h
      · exact hx h.symm
      · exact h2 h

theorem not_mem_take_of_le (c : Char) :
    ∀ (l : List Char) (m a : Nat), m ≤ a → c ∉ l.take a → c ∉ l.take m := by
  intro l
  induction l with
  | nil => intro m a _ _; simp
  | cons x xs ih =>
    intro m a hma h
    cases m with
    | zero => simp
    | succ m' =>
      cases a with
      | zero => exact absurd hma (by omega)
      | succ a' =>
        rw [List.take_succ_cons] at h ⊢
        simp only [List.mem_cons, not_or] at h ⊢
        exact ⟨h.1, ih m' a' (Nat.le_of_succ_le_succ hma) h.2⟩

theorem not_mem_drop_take (c : Char) :
    ∀ (l : List Char) (n m a : Nat), n + m ≤ a → c ∉ l.take a →
      c ∉ (l.drop n).take m := by
  intro l
  induction l with
  | nil => intro n m a _ _; simp
  | cons x xs ih =>
    intro n m a hle h
    cases n with
    | zero => simpa using not_mem_take_of_le c (x :: xs) m a (by omega) h
    | succ n' =>
      cases a with
      | zero => exact absurd hle (by omega)
      | succ a' =>
        rw [List.drop_succ_cons]
        apply ih n' m a' (by omega)
        rw [List.take_succ_cons] at h
        intro hc
        exact h (List.mem_cons_of_mem x hc)

theorem jsProp_eq_none_of_ne_obj (p : JVal)
    (h : ∀ fields, ¬ p = JVal.obj fields) (k : String) : jsProp p k = none := by
  cases p <;> first | rfl | exact absurd rfl (h _)

theorem jsProp_some_obj (p : JVal) (k : String) (v : JVal)
    (h : jsProp p k = some v) : ∃ fields, p = JVal.obj fields := by
  cases p
  case obj fields => exact ⟨fields, rfl⟩
  all_goals simp [jsProp] at h

theorem lastIdx_le (s : String) (b : Nat) (h : lastIdx rbrace s = some b) :
    b + 1 ≤ s.data.length := by
  unfold lastIdx at h
  obtain ⟨i, hi, hb⟩ := Option.map_eq_some'.mp h
  have hlen := (firstIdxAux_spec rbrace _ i hi).1
  rw [List.length_reverse] at hlen
  omega

theorem slice_no_lbrace (s : String) (a b : Nat)
    (ha : firstIdx lbrace s = some a) (hb : lastIdx rbrace s = some b)
    (hba : b < a) : lbrace ∉ (jsSubstring s a (b + 1)).data := by
  obtain ⟨haLen, haTake⟩ := firstIdxAux_spec lbrace s.data a ha
  have hbLen : b + 1 ≤ s.data.length := lastIdx_le s b hb
  have h1 : min a s.data.length = a := Nat.min_eq_left (Nat.le_of_lt haLen)
  have h2 : min (b + 1) s.data.length = b + 1 := Nat.min_eq_left hbLen
  have h3 : min a (b + 1) = b + 1 := Nat.min_eq_right (by omega)
  have h4 : max a (b + 1) = a := Nat.max_eq_left (by omega)
  show lbrace ∉ (String.mk _).data
  simp only [jsSubstring, h1, h2, h3, h4]
  exact not_mem_drop_take lbrace s.data (b + 1) (a - (b + 1)) a (by omega) haTake

theorem parsedOf_none_of_first_none (pj : String → Option JVal) (t : String)
    (h : firstIdx lbrace t = none) : parsedOf pj t = none := by
  unfold parsedOf
  rw [h]

theorem parsedOf_none_of_last_none (pj : String → Option JVal) (t : String)
    (h : lastIdx rbrace t = none) : parsedOf pj t = none := by
  unfold parsedOf
  rw [h]
  cases firstIdx lbrace t <;> rfl

theorem parsedOf_eq_slice (pj : String → Option JVal) (t : String) (a b : Nat)
    (ha : firstIdx lbrace t = some a) (hb : lastIdx rbrace t = some b) :
    parsedOf pj t = pj (jsSubstring t a (b + 1)) := by
  unfold parsedOf
  rw [ha, hb]

theorem extractDetection_of_parsedOf_none (pj : String → Option JVal) (t : String)
    (h : parsedOf pj t = none) :
    extractDetection pj t = { score := JVal.null, reason := JVal.str t } := by
  unfold extractDetection
  rw [h]

theorem extractDetection_of_not_obj (pj : String → Option JVal) (t : String)
    (p : JVal) (hp : parsedOf pj t = some p)
    (hno : ∀ fields, ¬ p = JVal.obj fields) :
    extractDetection pj t = { score := JVal.null, reason := JVal.str t } := by
  unfold extractDetection
  rw [hp]
  have hnone : jsProp p "probability" = none := jsProp_eq_none_of_ne_obj p hno _
  cases htr : jsTruthyV p
  · simp [htr]
  · simp [htr, hnone]

/-- C5: the tolerant extractor is a total function; when the response has
no left brace or no right brace, or the first left brace comes after the
last right brace, or the sliced substring does not parse as JSON, the
outcome is the unscored fallback whose reason is the raw response text.
The hypothesis `hbrace` records the JSON fact that a string without a
left brace never parses to an object. -/
theorem extractDetection_never_raises (pj : String → Option JVal) (t : String)
    (hbrace : ∀ s : String, lbrace ∉ s.data → ∀ fields, ¬ pj s = some (JVal.obj fields))
    (hcond : lbrace ∉ t.data ∨ rbrace ∉ t.data ∨
      (∃ a b, firstIdx lbrace t = some a ∧ lastIdx rbrace t = some b ∧ b < a) ∨
      (∃ a b, firstIdx lbrace t = some a ∧ lastIdx rbrace t = some b ∧
        pj (jsSubstring t a (b + 1)) = none)) :
    extractDetection pj t = { score := JVal.null, reason := JVal.str t } := by
  rcases hcond with h | h | ⟨a, b, ha, hb, hba⟩ | ⟨a, b, ha, hb, hp⟩
  · exact extractDetection_of_parsedOf_none pj t
      (parsedOf_none_of_first_none pj t ((firstIdxAux_eq_none_iff _ _).mpr h))
  · have hrev : rbrace ∉ t.data.reverse := by simpa using h
    have haux : firstIdxAux rbrace t.data.reverse = none :=
      (firstIdxAux_eq_none_iff _ _).mpr hrev
    have hl : lastIdx rbrace t = none := by unfold lastIdx; rw [haux]; rfl
    exact extractDetection_of_parsedOf_none pj t (parsedOf_none_of_last_none pj t hl)
  · have hnb := slice_no_lbrace t a b ha hb hba
    have hslice := parsedOf_eq_slice pj t a b ha hb
    rcases hps : pj (jsSubstring t a (b + 1)) with _ | p
    · exact extractDetection_of_parsedOf_none pj t (hslice.trans hps)
    · apply extractDetection_of_not_obj pj t p (hslice.trans hps)
      intro fields hf
      rw [hf] at hps
      exact hbrace _ hnb fields hps
  · exact extractDetection_of_parsedOf_none pj t
      ((parsedOf_eq_slice pj t a b ha hb).trans hp)

/-- C5 witness: a response with no braces at all yields the unscored
fallback carrying the raw text. -/
theorem extractDetection_never_raises_witness :
    extractDetection (fun _ => none) "no braces here" =
      { score := JVal.null, reason := JVal.str "no braces here" } :=
  extractDetection_never_raises (fun _ => none) "no braces here"
    (fun _ _ _ h => Option.noConfusion h)
    (Or.inl (by decide))

/-- C2 counterexample: on the spec's own wrong-type test response the
structural parse succeeds with a string-valued probability, and the code
scores it with that string instead of treating the result as unscored. -/
theorem wrong_type_probability_is_scored :
    pjSeventy ctext =
      some (JVal.obj [("probability", JVal.str "seventy"), ("explanation", JVal.str "x")])
    ∧ (extractDetection pjSeventy ctext).score = JVal.str "seventy"
    ∧ ¬ (extractDetection pjSeventy ctext).score = JVal.null := by
  refine ⟨rfl, rfl, fun h => ?_⟩
  rw [show (extractDetection pjSeventy ctext).score = JVal.str "seventy" from rfl] at h
  exact JVal.noConfusion h

/-- C2 amended: when the structural parse succeeds, the result is
unscored exactly when the parsed value's `probability` property is
undefined; any defined `probability` value, out-of-range or wrongly
typed included, becomes the score verbatim, with no validation. -/
theorem extractDetection_prob_unvalidated (pj : String → Option JVal) (t : String)
    (a b : Nat) (p : JVal)
    (h1 : firstIdx lbrace t = some a) (h2 : lastIdx rbrace t = some b)
    (h3 : pj (jsSubstring t a (b + 1)) = some p) :
    (jsProp p "probability" = none → (extractDetection pj t).score = JVal.null)
    ∧ ∀ v, jsProp p "probability" = some v → (extractDetection pj t).score = v := by
  have hp : parsedOf pj t = some p := (parsedOf_eq_slice pj t a b h1 h2).trans h3
  constructor
  · intro hnone
    unfold extractDetection
    rw [hp]
    cases htr : jsTruthyV p
    · simp [htr]
    · simp [htr, hnone]
  · intro v hv
    obtain ⟨fields, rfl⟩ := jsProp_some_obj p "probability" v hv
    unfold extractDetection
    rw [hp]
    simp [jsTruthyV, hv]

/-- C2 witness: a parse yielding the empty object (probability absent)
gives an unscored result. -/
theorem extractDetection_prob_unvalidated_witness :
    (extractDetection pjEmptyObj "\x7b\x7d").score = JVal.null :=
  (extractDetection_prob_unvalidated pjEmptyObj "\x7b\x7d" 0 1 (JVal.obj [])
    rfl rfl rfl).1 rfl

theorem extractContent_eq_match (data : JVal) (h : ¬ data = JVal.null) :
    extractContent data =
      match contentPath data with
      | none => Except.ok ""
      | some (JVal.str s) => Except.ok (jsTrim s)
      | some _ => Except.error "TypeError: trim is not a function" := by
  cases data <;> first | exact absurd rfl h | rfl

/-- C6 counterexample: a transport-successful body whose `content` is the
number 5 deviates from the expected shape, and extraction raises a
`TypeError` instead of degrading to the empty string. -/
theorem nonstring_content_raises :
    extractContent badBody = Except.error "TypeError: trim is not a function"
    ∧ ¬ extractContent badBody = Except.ok "" := by
  refine ⟨rfl, fun h => ?_⟩
  rw [show extractContent badBody = Except.error "TypeError: trim is not a function"
      from rfl] at h
  exact Except.noConfusion h

/-- C6 amended: when the optional chain finds no defined
`choices[0].message.content`, extraction degrades to the empty string; a
string content is trimmed and returned; but a defined non-string content
raises a `TypeError` (and a `null` body raises as well, the `choices`
access being unguarded). -/
theorem extractContent_graceful_only_for_missing_path (data : JVal)
    (h : ¬ data = JVal.null) :
    (contentPath data = none → extractContent data = Except.ok "")
    ∧ (∀ s, contentPath data = some (JVal.str s) →
        extractContent data = Except.ok (jsTrim s))
    ∧ (∀ v, contentPath data = some v → (∀ s, ¬ v = JVal.str s) →
        extractContent data = Except.error "TypeError: trim is not a function") := by
  refine ⟨fun hn => ?_, fun s hs => ?_, fun v hv hns => ?_⟩
  · rw [extractContent_eq_match data h, hn]
  · rw [extractContent_eq_match data h, hs]
  · rw [extractContent_eq_match data h, hv]
    cases v
    case str s => exact absurd rfl (hns s)
    all_goals rfl

/-- C6 witness: a body with no `choices` key extracts the empty string. -/
theorem extractContent_graceful_witness :
    extractContent (JVal.obj []) = Except.ok "" :=
  (extractContent_graceful_only_for_missing_path (JVal.obj [])
    (fun h => JVal.noConfusion h)).1 rfl

theorem handleHumanize_rewrite_error (env : Env) (storage : Storage)
    (st : CompState) (k msg : String)
    (h1 : ¬ jsTrim st.input = "") (hk : (resolveKey env storage).key = some k)
    (hr : callOpenAI env.rewriteFetch = .error msg) :
    handleHumanize env storage st =
      ⟨{ startedState st (resolveKey env storage).promptedOk with loading := false },
       (resolveKey env storage).storage, ["Error: " ++ msg],
       (resolveKey env storage).prompted,
       some (mkRewritePayload st.tone st.temperature st.input), none,
       some (startedState st (resolveKey env storage).promptedOk)⟩ := by
  simp only [handleHumanize, if_neg h1, hk, hr]

theorem handleHumanize_detect_error (env : Env) (storage : Storage)
    (st : CompState) (k : String) (data : JVal) (hum msg : String)
    (h1 : ¬ jsTrim st.input = "") (hk : (resolveKey env storage).key = some k)
    (hr : callOpenAI env.rewriteFetch = .ok data)
    (he : extractContent data = .ok hum)
    (hd : callOpenAI env.detectFetch = .error msg) :
    handleHumanize env storage st =
      ⟨{ startedState st (resolveKey env storage).promptedOk with
           output := hum, loading := false },
       (resolveKey env storage).storage, ["Error: " ++ msg],
       (resolveKey env storage).prompted,
       some (mkRewritePayload st.tone st.temperature st.input),
       some (mkDetectPayload st.input),
       some (startedState st (resolveKey env storage).promptedOk)⟩ := by
  simp only [handleHumanize, if_neg h1, hk, hr, he, hd]

/-- C1 counterexample: with the rewrite call succeeding and the detection
call answering HTTP 500, the run ends with the failure alert, yet the
rewritten text is still stored in `output` — the partial success is
kept, contrary to the claim. -/
theorem detect_failure_keeps_rewritten_text :
    (handleHumanize env1 stor0 stHola).alerts = ["Error: OpenAI error: 500 boom"]
    ∧ (handleHumanize env1 stor0 stHola).final.output = "Texto humanizado."
    ∧ ¬ (handleHumanize env1 stor0 stHola).final.output = "" := by
  refine ⟨rfl, rfl, by decide⟩

/-- C1 amended: when the rewrite call succeeds and the detection call
fails, the run ends in the failed state (error alert, no score, loading
cleared) but the rewritten text obtained from the first call IS preserved
in the resulting `output` state. -/
theorem detect_failure_failed_state_preserves_output (env : Env)
    (storage : Storage) (st : CompState) (k : String) (data : JVal)
    (hum msg : String)
    (h1 : ¬ jsTrim st.input = "") (hk : (resolveKey env storage).key = some k)
    (hr : callOpenAI env.rewriteFetch = .ok data)
    (he : extractContent data = .ok hum)
    (hd : callOpenAI env.detectFetch = .error msg) :
    (handleHumanize env storage st).alerts = ["Error: " ++ msg]
    ∧ (handleHumanize env storage st).final.output = hum
    ∧ (handleHumanize env storage st).final.score = JVal.null
    ∧ (handleHumanize env storage st).final.loading = false := by
  rw [handleHumanize_detect_error env storage st k data hum msg h1 hk hr he hd]
  exact ⟨rfl, rfl, rfl, rfl⟩

/-- C1 amended witness at the concrete failing-detection world. -/
theorem detect_failure_failed_state_preserves_output_witness :
    (handleHumanize env1 stor0 stHola).alerts = ["Error: OpenAI error: 500 boom"]
    ∧ (handleHumanize env1 stor0 stHola).final.output = "Texto humanizado."
    ∧ (handleHumanize env1 stor0 stHola).final.score = JVal.null
    ∧ (handleHumanize env1 stor0 stHola).final.loading = false :=
  detect_failure_failed_state_preserves_output env1 stor0 stHola "sk-w" okBody
    "Texto humanizado." "OpenAI error: 500 boom" (by decide) rfl rfl rfl rfl

/-- C3: the prompted key is written to the session store, but the next
run's lookup reads only the injected global and the persistent store, so
with both still absent the user is prompted again — the cached credential
is never reused. -/
theorem session_key_saved_but_next_run_prompts_again :
    (handleHumanize env3 stor0 stHola).storage.sessionKey = some "sk-test"
    ∧ (handleHumanize env3 (handleHumanize env3 stor0 stHola).storage
        (handleHumanize env3 stor0 stHola).final).prompted = true :=
  ⟨rfl, rfl⟩

/-- C4 counterexample: in a Processing state the copy, clear and download
buttons are not disabled, contrary to the claim that every user action is
inert. -/
theorem utilities_enabled_while_processing :
    stProcessing.loading = true
    ∧ copyDisabled stProcessing = false
    ∧ clearDisabled stProcessing = false
    ∧ saveDisabled stProcessing = false :=
  ⟨rfl, rfl, rfl, rfl⟩

/-- C4 amended: while Processing only the start trigger is disabled; the
copy, clear and download buttons remain enabled. -/
theorem only_start_disabled_while_processing (st : CompState)
    (h : st.loading = true) :
    startDisabled st = true ∧ copyDisabled st = false
    ∧ clearDisabled st = false ∧ saveDisabled st = false :=
  ⟨h, rfl, rfl, rfl⟩

/-- C4 amended witness at a concrete Processing state. -/
theorem only_start_disabled_while_processing_witness :
    startDisabled stProcessing = true ∧ copyDisabled stProcessing = false
    ∧ clearDisabled stProcessing = false ∧ saveDisabled stProcessing = false :=
  only_start_disabled_while_processing stProcessing rfl

/-- C7: when the rewrite call fails, the run ends in the failed state
with that error's message and the detection call is never issued. -/
theorem rewrite_failure_no_detect_call (env : Env) (storage : Storage)
    (st : CompState) (k msg : String)
    (h1 : ¬ jsTrim st.input = "") (hk : (resolveKey env storage).key = some k)
    (hr : callOpenAI env.rewriteFetch = .error msg) :
    (handleHumanize env storage st).alerts = ["Error: " ++ msg]
    ∧ (handleHumanize env storage st).detectCall = none
    ∧ (handleHumanize env storage st).final.loading = false := by
  rw [handleHumanize_rewrite_error env storage st k msg h1 hk hr]
  exact ⟨rfl, rfl, rfl⟩

/-- C7 witness at a concrete network-failing world. -/
theorem rewrite_failure_no_detect_call_witness :
    (handleHumanize env7 stor0 stHola).alerts = ["Error: Failed to fetch"]
    ∧ (handleHumanize env7 stor0 stHola).detectCall = none
    ∧ (handleHumanize env7 stor0 stHola).final.loading = false :=
  rewrite_failure_no_detect_call env7 stor0 stHola "sk-w" "Failed to fetch"
    (by decide) rfl rfl

/-- C8: with input empty after trimming, the run alerts the validation
notice, changes no state, touches no storage and issues no call. -/
theorem blank_input_no_transition (env : Env) (storage : Storage)
    (st : CompState) (h : jsTrim st.input = "") :
    handleHumanize env storage st =
      ⟨st, storage, ["Pega o escribe un texto primero."], false,
       none, none, none⟩ := by
  unfold handleHumanize
  rw [if_pos h]

/-- C8 witness at whitespace-only input. -/
theorem blank_input_no_transition_witness :
    handleHumanize envIdle stor0 stBlank =
      ⟨stBlank, stor0, ["Pega o escribe un texto primero."], false,
       none, none, none⟩ :=
  blank_input_no_transition envIdle stor0 stBlank (by decide)

theorem detectCall_eq (env : Env) (storage : Storage) (st : CompState) :
    (handleHumanize env storage st).detectCall =
      (if jsTrim st.input = "" then none
       else
        match (resolveKey env storage).key with
        | none => none
        | some _ =>
          match callOpenAI env.rewriteFetch with
          | .error _ => none
          | .ok data =>
            match extractContent data with
            | .error _ => none
            | .ok _ => some (mkDetectPayload st.input)) := by
  by_cases h : jsTrim st.input = ""
  · simp [handleHumanize, h]
  · rcases hk : (resolveKey env storage).key with _ | k
    · simp [handleHumanize, h, hk]
    · rcases hr : callOpenAI env.rewriteFetch with msg | data
      · simp [handleHumanize, h, hk, hr]
      · rcases he : extractContent data with m | hum
        · simp [handleHumanize, h, hk, hr, he]
        · rcases hd : callOpenAI env.detectFetch with m2 | dresp
          · simp [handleHumanize, h, hk, hr, he, hd]
          · rcases he2 : extractContent dresp with m3 | dt <;>
              simp [handleHumanize, h, hk, hr, he, hd, he2]

/-- C9: the detection request is independent of the user temperature
setting — two runs differing only in the temperature state issue the
same detection payload — and any issued detection payload carries
temperature 0 and max_tokens 200. -/
theorem detect_payload_independent_of_temperature (env : Env)
    (storage : Storage) (st : CompState) (t1 t2 : ℚ) :
    (handleHumanize env storage { st with temperature := t1 }).detectCall
      = (handleHumanize env storage { st with temperature := t2 }).detectCall
    ∧ ∀ p, (handleHumanize env storage st).detectCall = some p →
        p.temperature = 0 ∧ p.max_tokens = 200 := by
  constructor
  · rw [detectCall_eq, detectCall_eq]
  · intro p hp
    rw [detectCall_eq] at hp
    by_cases h : jsTrim st.input = ""
    · rw [if_pos h] at hp
      exact Option.noConfusion hp
    · rw [if_neg h] at hp
      rcases hk : (resolveKey env storage).key with _ | k <;>
        simp only [hk] at hp
      · exact Option.noConfusion hp
      · rcases hr : callOpenAI env.rewriteFetch with m | data <;>
          simp only [hr] at hp
        · exact Option.noConfusion hp
        · rcases he : extractContent data with m | hum <;>
            simp only [he] at hp
          · exact Option.noConfusion hp
          · obtain rfl : mkDetectPayload st.input = p := Option.some.inj hp
            exact ⟨rfl, rfl⟩

/-- C9 witness: a concrete run issuing the detection call. -/
theorem detect_payload_independent_of_temperature_witness :
    (mkDetectPayload "hola").temperature = 0
    ∧ (mkDetectPayload "hola").max_tokens = 200 :=
  (detect_payload_independent_of_temperature env1 stor0 stHola (7/10) (1/2)).2
    (mkDetectPayload "hola") rfl

theorem started_run_projections (env : Env) (storage : Storage)
    (st : CompState) (k : String)
    (h1 : ¬ jsTrim st.input = "") (hk : (resolveKey env storage).key = some k) :
    (handleHumanize env storage st).stateAtFirstCall
        = some (startedState st (resolveKey env storage).promptedOk)
    ∧ (handleHumanize env storage st).rewriteCall
        = some (mkRewritePayload st.tone st.temperature st.input) := by
  rcases hr : callOpenAI env.rewriteFetch with m | data
  · simp [handleHumanize, h1, hk, hr]
  · rcases he : extractContent data with m | hum
    · simp [handleHumanize, h1, hk, hr, he]
    · rcases hd : callOpenAI env.detectFetch with m2 | dresp
      · simp [handleHumanize, h1, hk, hr, he, hd]
      · rcases he2 : extractContent dresp with m3 | dt <;>
          simp [handleHumanize, h1, hk, hr, he, hd, he2]

/-- C10: whenever a run passes the input and credential preconditions,
the state current at the moment the first request is issued has `output`,
`score` and `reason` already reset and `loading` set, whatever the prior
state was. -/
theorem run_start_resets_results (env : Env) (storage : Storage)
    (st : CompState) (k : String)
    (h1 : ¬ jsTrim st.input = "") (hk : (resolveKey env storage).key = some k) :
    (handleHumanize env storage st).stateAtFirstCall
        = some (startedState st (resolveKey env storage).promptedOk)
    ∧ (startedState st (resolveKey env storage).promptedOk).output = ""
    ∧ (startedState st (resolveKey env storage).promptedOk).score = JVal.null
    ∧ (startedState st (resolveKey env storage).promptedOk).reason = JVal.str ""
    ∧ (startedState st (resolveKey env storage).promptedOk).loading = true
    ∧ (handleHumanize env storage st).rewriteCall
        = some (mkRewritePayload st.tone st.temperature st.input) := by
  obtain ⟨hs, hr⟩ := started_run_projections env storage st k h1 hk
  exact ⟨hs, rfl, rfl, rfl, rfl, hr⟩

/-- C10 witness: the reset holds at a concrete run from a dirty state. -/
theorem run_start_resets_results_witness :
    (handleHumanize env1 stor0 stHola).stateAtFirstCall
        = some (startedState stHola (resolveKey env1 stor0).promptedOk)
    ∧ (startedState stHola (resolveKey env1 stor0).promptedOk).output = ""
    ∧ (startedState stHola (resolveKey env1 stor0).promptedOk).score = JVal.null
    ∧ (startedState stHola (resolveKey env1 stor0).promptedOk).reason = JVal.str ""
    ∧ (startedState stHola (resolveKey env1 stor0).promptedOk).loading = true
    ∧ (handleHumanize env1 stor0 stHola).rewriteCall
        = some (mkRewritePayload stHola.tone stHola.temperature stHola.input) :=
  run_start_resets_results env1 stor0 stHola "sk-w" (by decide) rfl

end Humanizador
